import Mathlib

/-!
Verification of the pdfrender repository (src/main.py, the mature PyMuPDF
variant, and src/app/main.py, the legacy pdf2image variant).

The Python code is shallowly embedded: strings are handled as `List Char`
(Python removes spaces, lowercases and splits character-wise), Python `int()`
is modelled by `pyInt`, the Python `set` accumulated by `parse_page_range` is
modelled by the list of contributed pages up to deduplication, and
`sorted(set)` by an insertion sort of the deduplicated list.  The external
PDF/imaging libraries (PyMuPDF, PIL, pdf2image, requests) are out of scope per
the specification ("treated as a capability") and are modelled as environments
of fallible operations; downloaded bytes are modelled by their sizes, since no
claim depends on byte content.
-/

set_option maxRecDepth 4000

deriving instance DecidableEq for Except

namespace PdfRender

/-! ## Models of Python string/int primitives -/

/-- Whitespace trimming as performed by Python `int(str)` before parsing. -/
def trimChars (cs : List Char) : List Char :=
  ((cs.dropWhile Char.isWhitespace).reverse.dropWhile Char.isWhitespace).reverse

/-- Value of a non-empty all-digit character list; `none` otherwise
(accumulator form; the empty list maps to `some 0` and is guarded by callers). -/
def digitsVal (cs : List Char) : Option Nat :=
  cs.foldl
    (fun acc c =>
      match acc with
      | none => none
      | some n => if c.isDigit then some (n * 10 + (c.toNat - 48)) else none)
    (some 0)

/-- Model of Python `int(s)`: optional surrounding whitespace, an optional
sign, then one or more ASCII digits.  (Underscore digit grouping is not
modelled; no claim involves it.)  Returns `none` where Python raises
`ValueError`. -/
def pyInt (cs0 : List Char) : Option Int :=
  match trimChars cs0 with
  | [] => none
  | c :: cs =>
    if c = '+' then
      if cs = [] then none else (digitsVal cs).map (fun n => (n : Int))
    else if c = '-' then
      if cs = [] then none else (digitsVal cs).map (fun n => -(n : Int))
    else (digitsVal (c :: cs)).map (fun n => (n : Int))

/-- Model of Python `str.lower()` (ASCII case folding, character-wise). -/
def pyLower (cs : List Char) : List Char := cs.map Char.toLower

/-- Model of Python `str.replace(' ', '')`: removes every space. -/
def stripSpaces (cs : List Char) : List Char := cs.filter (fun c => c ≠ ' ')

/-- Model of `page_range.replace(' ', '').split(',')`. -/
def tokenize (s : String) : List (List Char) := (stripSpaces s.data).splitOn ','

/-- Model of Python `range(start, stop)` as a list of integers. -/
def intRange (start stop : Int) : List Int :=
  (List.range' 0 (stop - start).toNat).map (fun (k : Nat) => start + (k : Int))

/-! ## Range Parser (src/main.py `parse_page_range`, lines 59-95, and the
identical loop in src/app/main.py lines 40-79) -/

/-- Error taxonomy of `parse_page_range`: one constructor per distinct
`ValueError` message raised by the source.  The first, second and fourth
messages are the spec's `InvalidRangeSyntax`; the third and fifth are the
spec's `OutOfBounds`. -/
inductive ParseErr where
  | invalidRange (part : List Char)
  | invalidNumbersInRange (part : List Char)
  | outOfBoundsRange (part : List Char)
  | invalidPageNumber (part : List Char)
  | outOfBoundsPage (part : List Char)
deriving DecidableEq

/-- Discriminator of the two spec-level failure kinds: `true` for
`InvalidRangeSyntax`-kind messages, `false` for `OutOfBounds`-kind ones. -/
def ParseErr.isSyntax : ParseErr → Bool
  | .invalidRange _ => true
  | .invalidNumbersInRange _ => true
  | .invalidPageNumber _ => true
  | .outOfBoundsRange _ => false
  | .outOfBoundsPage _ => false

/-- Body of the `for part in parts` loop of `parse_page_range` for one token:
a hyphenated token must split into exactly two integer endpoints within
bounds and contributes `range(start, end+1)`; a plain token must be an
integer within bounds and contributes that single page. -/
def parseToken (part : List Char) (max_pages : Int) : Except ParseErr (List Int) :=
  if part.contains '-' then
    match part.splitOn '-' with
    | [s1, s2] =>
      match pyInt s1, pyInt s2 with
      | some start, some stop =>
        if start < 1 ∨ stop > max_pages ∨ start > stop then
          .error (.outOfBoundsRange part)
        else .ok (intRange start (stop + 1))
      | _, _ => .error (.invalidNumbersInRange part)
    | _ => .error (.invalidRange part)
  else
    match pyInt part with
    | some page =>
      if page < 1 ∨ page > max_pages then .error (.outOfBoundsPage part)
      else .ok [page]
    | none => .error (.invalidPageNumber part)

/-- The token loop: tokens are processed left to right, the first failing
token aborts with its error; on success the contributions are collected
(the Python `set` is this collection up to deduplication). -/
def processTokens : List (List Char) → Int → Except ParseErr (List Int)
  | [], _ => .ok []
  | p :: ps, m =>
    match parseToken p m with
    | .error e => .error e
    | .ok contrib =>
      match processTokens ps m with
      | .error e => .error e
      | .ok rest => .ok (contrib ++ rest)

/-- Model of Python `sorted(pages)` where `pages` is a set: the distinct
contributed values in ascending order. -/
def pySortedSet (l : List Int) : List Int := List.insertionSort (· ≤ ·) l.dedup

/-- Model of `list(range(1, max_pages + 1))`. -/
def allPages (m : Int) : List Int := intRange 1 (m + 1)

/-- src/main.py `parse_page_range`: the `'all'` comparison happens on the raw
expression (lowercased but with whitespace intact), before spaces are
stripped for tokenizing. -/
def parse_page_range (page_range : String) (max_pages : Int) :
    Except ParseErr (List Int) :=
  if pyLower page_range.data = "all".data then .ok (allPages max_pages)
  else (processTokens (tokenize page_range) max_pages).map pySortedSet

namespace App

/-- src/app/main.py `parse_page_range`: identical token loop, but with no
`'all'` branch at all. -/
def parse_page_range (page_range : String) (max_pages : Int) :
    Except ParseErr (List Int) :=
  (processTokens (tokenize page_range) max_pages).map pySortedSet

end App

/-! ## Bounded Downloader (src/main.py `download_pdf_to_tempfile`, lines
97-122).  Downloaded bytes are modelled by their sizes: `chunks` lists the
byte count of each chunk yielded by `response.iter_content`, and the value of
a successful download is the byte size of the temp file, i.e. the sum of the
written chunks.  No claim depends on byte content. -/

def MAX_PAGES_PER_REQUEST : Nat := 100

def MAX_FILE_SIZE : Nat := 200 * 1024 * 1024

def CHUNK_SIZE : Nat := 1024 * 1024

/-- Download failures: `transferError` for `raise_for_status` /
`requests.RequestException`, `payloadTooLarge` for the 400 raised when the
declared `Content-Length` exceeds `MAX_FILE_SIZE`. -/
inductive DownErr where
  | transferError
  | payloadTooLarge
deriving DecidableEq

/-- An HTTP response: whether the status is a success, the declared
`Content-Length` header if present, and the streamed chunk sizes. -/
structure HttpResponse where
  ok : Bool
  contentLength : Option Nat
  chunks : List Nat
deriving DecidableEq

/-- src/main.py `download_pdf_to_tempfile`: checks the status, rejects a
declared `Content-Length` above `MAX_FILE_SIZE`, then writes every non-empty
chunk to the temp file.  The loop performs no size check of its own. -/
def download_pdf_to_tempfile (r : HttpResponse) : Except DownErr Nat :=
  if r.ok = false then .error .transferError
  else
    match r.contentLength with
    | some n =>
      if n > MAX_FILE_SIZE then .error .payloadTooLarge
      else .ok ((r.chunks.filter (fun c => c ≠ 0)).foldl (· + ·) 0)
    | none => .ok ((r.chunks.filter (fun c => c ≠ 0)).foldl (· + ·) 0)

/-! ## Document Inspector and Page Renderer (src/main.py lines 124-204).
Per the spec the PDF library is a capability: a `Doc` is what `fitz.open`
yields (its page count, plus one fallible operation collapsing
`load_page` / `get_pixmap` / PIL conversion / encode / b64encode for a given
0-based page index, dpi, quality and format).  `fitz.open` itself may fail,
so an environment carries an `Except` of `Doc`; exceptions are modelled as
their message strings. -/

abbrev PyErr := String

/-- A successfully opened PDF document. -/
structure Doc where
  pageCount : Nat
  renderEncode : Nat → Int → Int → Bool → Except PyErr String

/-- src/main.py `get_pdf_page_count`: opens the document and returns
`len(doc)`; an exception propagates (the source wraps it into a 400
"Invalid PDF file", modelled at the pipeline level). -/
def get_pdf_page_count (open_doc : Except PyErr Doc) : Except PyErr Nat :=
  match open_doc with
  | .ok doc => .ok doc.pageCount
  | .error e => .error e

/-- The `try` body of src/main.py `process_single_page`: open the document,
convert the 1-based page number to a 0-based index, return `None` (inside the
`try`) if the index is out of range, otherwise rasterize and encode.  An
`.error` is an exception reaching the `except` clause. -/
def process_single_page_body (open_doc : Except PyErr Doc) (page_num : Int)
    (dpi quality : Int) (use_jpeg : Bool) : Except PyErr (Option String) :=
  match open_doc with
  | .error e => .error e
  | .ok doc =>
    let page_index := page_num - 1
    if page_index ≥ (doc.pageCount : Int) ∨ page_index < 0 then .ok none
    else
      match doc.renderEncode page_index.toNat dpi quality use_jpeg with
      | .error e => .error e
      | .ok img => .ok (some img)

/-- src/main.py `process_single_page`: the `except Exception` clause converts
any exception from the body into a `None` result. -/
def process_single_page (open_doc : Except PyErr Doc) (page_num : Int)
    (dpi quality : Int) (use_jpeg : Bool) : Option String :=
  match process_single_page_body open_doc page_num dpi quality use_jpeg with
  | .ok r => r
  | .error _ => none

/-- src/main.py `process_page_range_low_memory`: renders the pages one at a
time, appending the image and the page number exactly when the render
succeeded. -/
def process_page_range_low_memory (open_doc : Except PyErr Doc)
    (page_numbers : List Int) (dpi quality : Int) (use_jpeg : Bool) :
    List String × List Int :=
  match page_numbers with
  | [] => ([], [])
  | p :: ps =>
    let rest := process_page_range_low_memory open_doc ps dpi quality use_jpeg
    match process_single_page open_doc p dpi quality use_jpeg with
    | some img => (img :: rest.1, p :: rest.2)
    | none => rest

/-! ## Batch Pipeline (src/main.py `convert_pdf_to_images`, lines 206-275) -/

/-- Request body of the POST /convert-pdf endpoint (the URL is represented by
the environment's `HttpResponse`). -/
structure PDFRequest where
  page_range : String
  dpi : Int
  quality : Int
  use_jpeg : Bool

/-- Success response of the pipeline.  (`memory_used`, a formatted float
string derived from the images, is not modelled.) -/
structure PDFResponse where
  images : List String
  total_pages_processed : Nat
  pages : List Int
  file_size : Nat
deriving DecidableEq

/-- Request-level failures of the pipeline, one per `raise` site; all map to
HTTP 400 except `allPagesFailed` and `internalError`, which map to 500. -/
inductive ConvErr where
  | downloadFailed
  | payloadTooLarge
  | invalidPdf
  | parseError (e : ParseErr)
  | emptySelection
  | tooManyPages
  | dpiTooHigh
  | dpiTooLow
  | allPagesFailed
  | internalError
deriving DecidableEq

/-- Environment of one request: the HTTP response for the requested URL and
the result of `fitz.open` on the downloaded file (used both by the page-count
inspection and by each per-page render, which all open the same temp file). -/
structure PipelineEnv where
  response : HttpResponse
  open_doc : Except PyErr Doc

/-- src/main.py `convert_pdf_to_images`: download, inspect the page count,
resolve the range, check the selection/ceilings (empty set, max pages, dpi
high, dpi low — in that order; quality is never checked), render the
requested pages one by one, and fail with `allPagesFailed` exactly when no
page rendered. -/
def convert_pdf_to_images (env : PipelineEnv) (req : PDFRequest) :
    Except ConvErr PDFResponse :=
  match download_pdf_to_tempfile env.response with
  | .error .transferError => .error .downloadFailed
  | .error .payloadTooLarge => .error .payloadTooLarge
  | .ok file_size =>
    match get_pdf_page_count env.open_doc with
    | .error _ => .error .invalidPdf
    | .ok total_pages =>
      match parse_page_range req.page_range (total_pages : Int) with
      | .error e => .error (.parseError e)
      | .ok requested_pages =>
        if requested_pages = [] then .error .emptySelection
        else if requested_pages.length > MAX_PAGES_PER_REQUEST then
          .error .tooManyPages
        else if req.dpi > 600 then .error .dpiTooHigh
        else if req.dpi < 50 then .error .dpiTooLow
        else
          let res := process_page_range_low_memory env.open_doc
            requested_pages req.dpi req.quality req.use_jpeg
          if res.1 = [] then .error .allPagesFailed
          else .ok ⟨res.1, res.1.length, res.2, file_size⟩

namespace App

/-! ## Legacy pipeline (src/app/main.py `convert_pdf_to_images`, lines
81-130).  pdf2image's `convert_from_bytes` is the capability here: rendering
the whole document at the request dpi yields one encoded image per page, and
a call with `first_page`/`last_page` yields the sub-list for that 1-based
inclusive page interval.  The environment carries the per-page encoded
images of the document; the download (plain `requests.get`, no size limit) is
taken as succeeded. -/

/-- Request body of the legacy endpoint. -/
structure PDFRequest where
  page_range : String
  dpi : Int

/-- Response of the legacy endpoint. -/
structure PDFResponse where
  images : List String
  total_pages_processed : Nat
  pages : List Int
deriving DecidableEq

/-- Environment: the document's pages as encoded images. -/
structure Env where
  pages_imgs : List String

/-- src/app/main.py `convert_pdf_to_images`: counts pages by converting the
whole document, resolves the range, then converts the contiguous block from
`min(pages_to_convert)+1` to `max(pages_to_convert)+1` and pairs ALL of those
images with the requested page list. -/
def convert_pdf_to_images (env : Env) (req : PDFRequest) :
    Except ConvErr PDFResponse :=
  let total_pages := env.pages_imgs.length
  match parse_page_range req.page_range (total_pages : Int) with
  | .error e => .error (.parseError e)
  | .ok requested_pages =>
    if requested_pages = [] then .error .emptySelection
    else
      let pages_to_convert := requested_pages.map (fun p => p - 1)
      match pages_to_convert.min?, pages_to_convert.max? with
      | some mn, some mx =>
        let first := mn + 1
        let last := mx + 1
        let images :=
          (env.pages_imgs.drop (first - 1).toNat).take (last - first + 1).toNat
        .ok ⟨images, images.length, requested_pages⟩
      | _, _ => .error .internalError

end App

/-! ## Claim-side characterizations of token validity (for the error
taxonomy of §4.1: "a token is neither a valid integer nor a valid start-end
pair" versus "a page or range endpoint out of bounds / start > end").  A
token containing a hyphen is always treated as a range attempt by the
source, so a bare negative numeral counts as a malformed pair, not as an
integer. -/

/-- A hyphen-free token that parses as an integer. -/
def isValidInt (part : List Char) : Bool :=
  !part.contains '-' && (pyInt part).isSome

/-- A hyphenated token splitting into exactly two integer endpoints. -/
def isValidPair (part : List Char) : Bool :=
  part.contains '-' &&
    match part.splitOn '-' with
    | [s1, s2] => (pyInt s1).isSome && (pyInt s2).isSome
    | _ => false

/-- The in-bounds condition for a well-formed token: endpoints within
`[1, totalPages]` and, for a pair, start ≤ end. -/
def tokenInBounds (part : List Char) (m : Int) : Bool :=
  if part.contains '-' then
    match part.splitOn '-' with
    | [s1, s2] =>
      match pyInt s1, pyInt s2 with
      | some a, some b => decide (1 ≤ a ∧ b ≤ m ∧ a ≤ b)
      | _, _ => false
    | _ => false
  else
    match pyInt part with
    | some page => decide (1 ≤ page ∧ page ≤ m)
    | none => false

/-! ## Concrete documents and environments used by the witnesses -/

/-- A concrete two-page document whose first page fails to render and whose
second page renders to "IMG". -/
def docWitness : Doc :=
  ⟨2, fun i _ _ _ => if i == 0 then .error "render failure" else .ok "IMG"⟩

/-- Pipeline environment for concrete runs: a good 10-byte download and the
two-page document `docWitness`. -/
def envWitness : PipelineEnv := ⟨⟨true, some 10, [10]⟩, .ok docWitness⟩

/-- A one-page document that always renders. -/
def docOnePage : Doc := ⟨1, fun _ _ _ _ => .ok "IMG"⟩

/-- Environment with a good 10-byte download and `docOnePage`. -/
def envOnePage : PipelineEnv := ⟨⟨true, some 10, [10]⟩, .ok docOnePage⟩

/-! ## Helper lemmas about the Range Parser -/

theorem mem_intRange {a b x : Int} : x ∈ intRange a b ↔ a ≤ x ∧ x < b := by
  unfold intRange
  constructor
  · intro hx
    obtain ⟨k, hk, rfl⟩ := List.mem_map.1 hx
    have hk' := List.mem_range'_1.1 hk
    omega
  · rintro ⟨h1, h2⟩
    refine List.mem_map.2 ⟨(x - a).toNat,
      List.mem_range'_1.2 ⟨by omega, by omega⟩, by omega⟩

theorem sorted_intRange {a b : Int} : List.Sorted (· < ·) (intRange a b) := by
  unfold intRange
  rw [List.range'_eq_map_range, List.map_map]
  refine List.Pairwise.map _ (fun x y h => ?_) (List.pairwise_lt_range _)
  simp only [Function.comp_apply]
  omega

/-- Inversion of a successful `parseToken`. -/
theorem parseToken_ok_inv {p : List Char} {m : Int} {l : List Int}
    (h : parseToken p m = .ok l) :
    (∃ s1 s2 a b, p.contains '-' = true ∧ p.splitOn '-' = [s1, s2] ∧
       pyInt s1 = some a ∧ pyInt s2 = some b ∧ 1 ≤ a ∧ b ≤ m ∧ a ≤ b ∧
       l = intRange a (b + 1)) ∨
    (∃ page, p.contains '-' = false ∧ pyInt p = some page ∧
       1 ≤ page ∧ page ≤ m ∧ l = [page]) := by
  unfold parseToken at h
  by_cases hc : p.contains '-' = true
  · rw [if_pos hc] at h
    left
    rcases hs : p.splitOn '-' with _ | ⟨s1, _ | ⟨s2, _ | ⟨s3, rest⟩⟩⟩ <;>
        rw [hs] at h <;> simp only [] at h <;> try cases h
    rcases h1 : pyInt s1 with _ | a <;> rcases h2 : pyInt s2 with _ | b <;>
        rw [h1, h2] at h <;> simp only [] at h <;> try cases h
    by_cases hb : a < 1 ∨ b > m ∨ a > b
    · rw [if_pos hb] at h
      simp at h
    · rw [if_neg hb] at h
      push_neg at hb
      injection h with hinj
      exact ⟨s1, s2, a, b, hc, rfl, h1, h2, hb.1, hb.2.1, hb.2.2, hinj.symm⟩
  · rw [if_neg hc] at h
    right
    rcases hp : pyInt p with _ | page <;> rw [hp] at h <;> simp only [] at h <;>
      try cases h
    by_cases hb : page < 1 ∨ page > m
    · rw [if_pos hb] at h
      simp at h
    · rw [if_neg hb] at h
      push_neg at hb
      injection h with hinj
      exact ⟨page, by simpa using hc, rfl, hb.1, hb.2, hinj.symm⟩

/-- Classification of one token: success is exactly well-formedness plus
bounds, and the kind of the raised error (syntax vs out-of-bounds) is exactly
determined by whether the token is well-formed. -/
theorem parseToken_classified (p : List Char) (m : Int) :
    ((∃ l, parseToken p m = .ok l) ↔
       (isValidInt p = true ∨ isValidPair p = true) ∧ tokenInBounds p m = true)
    ∧ (∀ e, parseToken p m = .error e →
        ((e.isSyntax = true ↔ ¬(isValidInt p = true ∨ isValidPair p = true))
         ∧ (e.isSyntax = false ↔
             (isValidInt p = true ∨ isValidPair p = true) ∧
               tokenInBounds p m = false))) := by
  by_cases hc : p.contains '-' = true
  · have hc' : '-' ∈ p := by simpa using hc
    rcases hs : p.splitOn '-' with _ | ⟨s1, _ | ⟨s2, _ | ⟨s3, rest⟩⟩⟩
    · simp [parseToken, isValidInt, isValidPair, tokenInBounds,
        ParseErr.isSyntax, hc, hc', hs]
    · simp [parseToken, isValidInt, isValidPair, tokenInBounds,
        ParseErr.isSyntax, hc, hc', hs]
    · rcases h1 : pyInt s1 with _ | a <;> rcases h2 : pyInt s2 with _ | b
      · simp [parseToken, isValidInt, isValidPair, tokenInBounds,
          ParseErr.isSyntax, hc, hc', hs, h1, h2]
      · simp [parseToken, isValidInt, isValidPair, tokenInBounds,
          ParseErr.isSyntax, hc, hc', hs, h1, h2]
      · simp [parseToken, isValidInt, isValidPair, tokenInBounds,
          ParseErr.isSyntax, hc, hc', hs, h1, h2]
      · by_cases hb : a < 1 ∨ b > m ∨ a > b
        · simp [parseToken, isValidInt, isValidPair, tokenInBounds,
            ParseErr.isSyntax, hc, hc', hs, h1, h2, if_pos hb]
          omega
        · simp [parseToken, isValidInt, isValidPair, tokenInBounds,
            ParseErr.isSyntax, hc, hc', hs, h1, h2, if_neg hb]
          omega
    · simp [parseToken, isValidInt, isValidPair, tokenInBounds,
        ParseErr.isSyntax, hc, hc', hs]
  · simp only [Bool.not_eq_true] at hc
    have hc' : ¬('-' ∈ p) := by simpa using hc
    rcases hp : pyInt p with _ | page
    · simp [parseToken, isValidInt, isValidPair, tokenInBounds,
        ParseErr.isSyntax, hc, hc', hp]
    · by_cases hb : page < 1 ∨ page > m
      · simp [parseToken, isValidInt, isValidPair, tokenInBounds,
          ParseErr.isSyntax, hc, hc', hp, if_pos hb]
        omega
      · simp [parseToken, isValidInt, isValidPair, tokenInBounds,
          ParseErr.isSyntax, hc, hc', hp, if_neg hb]
        omega

theorem parseToken_ok_bounds {p : List Char} {m : Int} {l : List Int}
    (h : parseToken p m = .ok l) : (∀ x ∈ l, 1 ≤ x ∧ x ≤ m) ∧ l ≠ [] := by
  rcases parseToken_ok_inv h with
    ⟨s1, s2, a, b, _, _, _, _, ha, hb, hab, rfl⟩ | ⟨page, _, _, h1, h2, rfl⟩
  · constructor
    · intro x hx
      rw [mem_intRange] at hx
      omega
    · have hm : a ∈ intRange a (b + 1) := mem_intRange.2 (by omega)
      exact List.ne_nil_of_mem hm
  · exact ⟨by simp [h1, h2], by simp⟩

/-- One unfolding of the token loop on a non-empty token list. -/
theorem processTokens_cons_eq (p : List Char) (ps : List (List Char)) (m : Int) :
    processTokens (p :: ps) m =
      match parseToken p m with
      | .error e => .error e
      | .ok contrib =>
        match processTokens ps m with
        | .error e => .error e
        | .ok rest => .ok (contrib ++ rest) := rfl

theorem processTokens_cons_ok {p : List Char} {ps : List (List Char)} {m : Int}
    {l : List Int} (h : processTokens (p :: ps) m = .ok l) :
    ∃ c r, parseToken p m = .ok c ∧ processTokens ps m = .ok r ∧ l = c ++ r := by
  rw [processTokens_cons_eq] at h
  rcases hp : parseToken p m with e | c <;> rw [hp] at h
  · simp at h
  · rcases hr : processTokens ps m with e | r <;> rw [hr] at h
    · simp at h
    · injection h with h2
      exact ⟨c, r, rfl, rfl, h2.symm⟩

theorem processTokens_cons_ok_of {p : List Char} {ps : List (List Char)}
    {m : Int} {c r : List Int} (hp : parseToken p m = .ok c)
    (hr : processTokens ps m = .ok r) :
    processTokens (p :: ps) m = .ok (c ++ r) := by
  rw [processTokens_cons_eq, hp, hr]

/-- A failing token loop fails with the error of the first offending token:
every token strictly before it parses successfully. -/
theorem processTokens_err_inv {ts : List (List Char)} {m : Int} {e : ParseErr}
    (h : processTokens ts m = .error e) :
    ∃ l1 p l2, ts = l1 ++ p :: l2 ∧
      (∀ q ∈ l1, ∃ c, parseToken q m = .ok c) ∧ parseToken p m = .error e := by
  induction ts with
  | nil => cases h
  | cons p ps ih =>
    rw [processTokens_cons_eq] at h
    rcases hp : parseToken p m with e' | c <;> rw [hp] at h <;>
      simp only [] at h
    · injection h with h2
      subst h2
      exact ⟨[], p, ps, rfl, by simp, hp⟩
    · rcases hr : processTokens ps m with e' | r <;> rw [hr] at h <;>
        simp only [] at h
      · injection h with h2
        subst h2
        obtain ⟨l1, q, l2, rfl, hok, herr⟩ := ih hr
        refine ⟨p :: l1, q, l2, rfl, ?_, herr⟩
        intro q' hq'
        rcases List.mem_cons.1 hq' with rfl | hq'
        · exact ⟨c, hp⟩
        · exact hok q' hq'
      · cases h

theorem processTokens_ok_mem {ts : List (List Char)} {m : Int} {l : List Int}
    (h : processTokens ts m = .ok l) : ∀ x ∈ l, 1 ≤ x ∧ x ≤ m := by
  induction ts generalizing l with
  | nil =>
    injection h with h2
    subst h2
    simp
  | cons p ps ih =>
    obtain ⟨c, r, hp, hr, rfl⟩ := processTokens_cons_ok h
    intro x hx
    rcases List.mem_append.1 hx with hx | hx
    · exact (parseToken_ok_bounds hp).1 x hx
    · exact ih hr x hx

theorem processTokens_ok_ne_nil {ts : List (List Char)} {m : Int} {l : List Int}
    (hts : ts ≠ []) (h : processTokens ts m = .ok l) : l ≠ [] := by
  cases ts with
  | nil => exact absurd rfl hts
  | cons p ps =>
    obtain ⟨c, r, hp, hr, rfl⟩ := processTokens_cons_ok h
    have := (parseToken_ok_bounds hp).2
    simp [this]

theorem processTokens_perm {ts₁ ts₂ : List (List Char)}
    (hperm : ts₁.Perm ts₂) : ∀ {m : Int} {l : List Int},
    processTokens ts₁ m = .ok l →
    ∃ l', processTokens ts₂ m = .ok l' ∧ l.Perm l' := by
  induction hperm with
  | nil =>
    intro m l h
    exact ⟨l, h, List.Perm.refl l⟩
  | cons p h ih =>
    intro m l hl
    obtain ⟨c, r, hp, hr, rfl⟩ := processTokens_cons_ok hl
    obtain ⟨l', hl', hperm'⟩ := ih hr
    exact ⟨c ++ l', processTokens_cons_ok_of hp hl', hperm'.append_left c⟩
  | swap a b l =>
    intro m w hw
    obtain ⟨cb, r1, hb, hr1, rfl⟩ := processTokens_cons_ok hw
    obtain ⟨ca, rest, ha, hrest, rfl⟩ := processTokens_cons_ok hr1
    refine ⟨ca ++ (cb ++ rest),
      processTokens_cons_ok_of ha (processTokens_cons_ok_of hb hrest), ?_⟩
    have hmid : ((cb ++ ca) ++ rest).Perm ((ca ++ cb) ++ rest) :=
      List.perm_append_comm.append_right rest
    rw [List.append_assoc, List.append_assoc] at hmid
    exact hmid
  | trans h₁ h₂ ih₁ ih₂ =>
    intro m l hl
    obtain ⟨l₁, hl₁, hp₁⟩ := ih₁ hl
    obtain ⟨l₂, hl₂, hp₂⟩ := ih₂ hl₁
    exact ⟨l₂, hl₂, hp₁.trans hp₂⟩

theorem pySortedSet_sorted (l : List Int) :
    List.Sorted (· < ·) (pySortedSet l) := by
  have h1 : List.Sorted (· ≤ ·) (pySortedSet l) :=
    List.sorted_insertionSort _ _
  have h2 : (pySortedSet l).Nodup :=
    (List.perm_insertionSort _ _).symm.nodup (List.nodup_dedup l)
  exact h1.lt_of_le h2

theorem mem_pySortedSet {x : Int} {l : List Int} :
    x ∈ pySortedSet l ↔ x ∈ l := by
  unfold pySortedSet
  rw [(List.perm_insertionSort _ _).mem_iff, List.mem_dedup]

theorem pySortedSet_nodup (l : List Int) : (pySortedSet l).Nodup :=
  (List.perm_insertionSort _ _).symm.nodup (List.nodup_dedup l)

theorem pySortedSet_eq_of_mem_iff {l₁ l₂ : List Int}
    (h : ∀ x, x ∈ l₁ ↔ x ∈ l₂) : pySortedSet l₁ = pySortedSet l₂ := by
  have hperm : (pySortedSet l₁).Perm (pySortedSet l₂) := by
    refine List.perm_of_nodup_nodup_toFinset_eq (pySortedSet_nodup l₁)
      (pySortedSet_nodup l₂) ?_
    ext x
    simp only [List.mem_toFinset, mem_pySortedSet]
    exact h x
  exact List.eq_of_perm_of_sorted hperm
    (List.sorted_insertionSort _ _) (List.sorted_insertionSort _ _)

theorem pySortedSet_ne_nil {l : List Int} (h : l ≠ []) : pySortedSet l ≠ [] := by
  obtain ⟨x, hx⟩ := List.exists_mem_of_ne_nil l h
  exact List.ne_nil_of_mem (mem_pySortedSet.2 hx)

theorem tokenize_ne_nil (s : String) : tokenize s ≠ [] :=
  List.splitOnP_ne_nil _ _

theorem mem_allPages {m x : Int} : x ∈ allPages m ↔ 1 ≤ x ∧ x ≤ m := by
  unfold allPages
  rw [mem_intRange]
  omega

theorem sorted_allPages (m : Int) : List.Sorted (· < ·) (allPages m) :=
  sorted_intRange

theorem allPages_ne_nil {m : Int} (h : 1 ≤ m) : allPages m ≠ [] :=
  List.ne_nil_of_mem (mem_allPages.2 ⟨le_refl 1, h⟩)

/-- The render loop is exactly a filterMap over the page list: the images are
the successful renders in order, the successful pages are the pages whose
render succeeded, in order. -/
theorem process_page_range_low_memory_eq (open_doc : Except PyErr Doc)
    (page_numbers : List Int) (dpi quality : Int) (use_jpeg : Bool) :
    process_page_range_low_memory open_doc page_numbers dpi quality use_jpeg =
      (page_numbers.filterMap
         (fun p => process_single_page open_doc p dpi quality use_jpeg),
       page_numbers.filter
         (fun p => (process_single_page open_doc p dpi quality use_jpeg).isSome)) := by
  induction page_numbers with
  | nil => rfl
  | cons p ps ih =>
    unfold process_page_range_low_memory
    rw [ih]
    rcases hp : process_single_page open_doc p dpi quality use_jpeg with _ | img <;>
      simp [List.filterMap_cons, List.filter_cons, hp]

theorem exceptMap_ok {α β ε : Type} {f : α → β} {x : Except ε α} {r : β}
    (h : x.map f = .ok r) : ∃ l, x = .ok l ∧ r = f l := by
  rcases x with e | l
  · simp [Except.map] at h
  · refine ⟨l, rfl, ?_⟩
    simp only [Except.map] at h
    injection h with h2
    exact h2.symm

theorem parse_page_range_ok_ne_nil {s : String} {N : Int} {r : List Int}
    (h : parse_page_range s N = .ok r) (hN : 1 ≤ N) : r ≠ [] := by
  unfold parse_page_range at h
  split at h
  · injection h with h2
    subst h2
    exact allPages_ne_nil hN
  · obtain ⟨l, hl, rfl⟩ := exceptMap_ok h
    exact pySortedSet_ne_nil (processTokens_ok_ne_nil (tokenize_ne_nil s) hl)

/-! ## Claim theorems -/

/-- C6: for every expression on which `parse_page_range` succeeds (in either
variant) the result is strictly ascending, duplicate-free and contained in
`[1, totalPages]`; in particular `resolve("2,2,2", 5) = [2]` and
`resolve("1-3,5,7-9", 10) = [1,2,3,5,7,8,9]`. -/
theorem C6_sorted_unique_in_bounds :
    (∀ (s : String) (N : Int) (r : List Int), parse_page_range s N = .ok r →
       List.Sorted (· < ·) r ∧ r.Nodup ∧ ∀ x ∈ r, 1 ≤ x ∧ x ≤ N)
    ∧ (∀ (s : String) (N : Int) (r : List Int), App.parse_page_range s N = .ok r →
       List.Sorted (· < ·) r ∧ r.Nodup ∧ ∀ x ∈ r, 1 ≤ x ∧ x ≤ N)
    ∧ parse_page_range "2,2,2" 5 = .ok [2]
    ∧ parse_page_range "1-3,5,7-9" 10 = .ok [1, 2, 3, 5, 7, 8, 9] := by
  refine ⟨?_, ?_, by decide, by decide⟩
  · intro s N r h
    unfold parse_page_range at h
    split at h
    · injection h with h2
      subst h2
      exact ⟨sorted_allPages N, (sorted_allPages N).nodup,
        fun x hx => mem_allPages.1 hx⟩
    · obtain ⟨l, hl, rfl⟩ := exceptMap_ok h
      exact ⟨pySortedSet_sorted l, pySortedSet_nodup l,
        fun x hx => processTokens_ok_mem hl x (mem_pySortedSet.1 hx)⟩
  · intro s N r h
    unfold App.parse_page_range at h
    obtain ⟨l, hl, rfl⟩ := exceptMap_ok h
    exact ⟨pySortedSet_sorted l, pySortedSet_nodup l,
      fun x hx => processTokens_ok_mem hl x (mem_pySortedSet.1 hx)⟩

/-- C6 witness: the invariants instantiated on a concrete successful parse. -/
theorem C6_witness :
    parse_page_range "1-3" 5 = .ok [1, 2, 3] ∧
      (List.Sorted (· < ·) ([1, 2, 3] : List Int) ∧
        ([1, 2, 3] : List Int).Nodup ∧
        ∀ x ∈ ([1, 2, 3] : List Int), 1 ≤ x ∧ x ≤ 5) :=
  ⟨by decide, C6_sorted_unique_in_bounds.1 "1-3" 5 [1, 2, 3] (by decide)⟩

/-- C5 counterexample: " all" whitespace-stripped equals "all"
case-insensitively, yet src/main.py's parser (whose `'all'` test runs before
whitespace removal) rejects it with the invalid-page-number error instead of
returning [1]. -/
theorem C5_whitespace_all_fails :
    pyLower (stripSpaces " all".data) = "all".data
    ∧ parse_page_range " all" 1 = .error (ParseErr.invalidPageNumber "all".data) :=
  ⟨by decide, by decide⟩

/-- C5 amended: only when the raw expression itself (no whitespace
normalization) lowercases to "all" does resolution take the all-pages branch,
returning the full ascending range `[1, ..., N]`. -/
theorem C5_all_literal (s : String) (N : Int)
    (hall : pyLower s.data = "all".data) (hN : 1 ≤ N) :
    ∃ r, parse_page_range s N = .ok r ∧ r ≠ [] ∧ List.Sorted (· < ·) r ∧
      ∀ x, x ∈ r ↔ 1 ≤ x ∧ x ≤ N := by
  refine ⟨allPages N, ?_, allPages_ne_nil hN, sorted_allPages N,
    fun x => mem_allPages⟩
  unfold parse_page_range
  rw [if_pos hall]

/-- C5 witness: the amended claim instantiated at "ALL" with two pages. -/
theorem C5_witness :
    ∃ r, parse_page_range "ALL" 2 = .ok r ∧ r ≠ [] ∧ List.Sorted (· < ·) r ∧
      ∀ x, x ∈ r ↔ 1 ≤ x ∧ x ≤ 2 :=
  C5_all_literal "ALL" 2 (by decide) (by decide)

/-- C9: resolution is invariant under permuting the comma-separated tokens of
the expression: any expression whose token list is a permutation of a
successfully resolved expression's token list (and which agrees with it on
the `'all'` guard, as the intact permuted expression does) resolves to the
same page list. -/
theorem C9_token_permutation_invariant (s t : String) (N : Int) (r : List Int)
    (hs : parse_page_range s N = .ok r)
    (hperm : (tokenize t).Perm (tokenize s))
    (hall : pyLower t.data = "all".data ↔ pyLower s.data = "all".data) :
    parse_page_range t N = .ok r := by
  unfold parse_page_range at hs ⊢
  by_cases hA : pyLower s.data = "all".data
  · rw [if_pos hA] at hs
    rw [if_pos (hall.2 hA)]
    exact hs
  · rw [if_neg hA] at hs
    rw [if_neg (fun hT => hA (hall.1 hT))]
    obtain ⟨l, hl, rfl⟩ := exceptMap_ok hs
    obtain ⟨l', hl', hpl⟩ := processTokens_perm hperm.symm hl
    rw [hl']
    simp only [Except.map]
    congr 1
    exact pySortedSet_eq_of_mem_iff (fun x => (hpl.mem_iff).symm)

/-- C9 witness: "1,2" is a token permutation of the successfully resolved
"2,1" and resolves to the same list. -/
theorem C9_witness : parse_page_range "1,2" 3 = .ok [1, 2] :=
  C9_token_permutation_invariant "2,1" "1,2" 3 [1, 2]
    (by decide) (by decide) (by decide)

/-- C10: a successful resolution against a document with at least one page is
never empty, so the pipeline's empty-selection rejection is unreachable for
documents with at least one page. -/
theorem C10_nonempty_selection :
    (∀ (s : String) (N : Int) (r : List Int),
       parse_page_range s N = .ok r → 1 ≤ N → r ≠ [])
    ∧ (∀ (env : PipelineEnv) (req : PDFRequest) (N : Nat),
       get_pdf_page_count env.open_doc = .ok N → 1 ≤ N →
       convert_pdf_to_images env req ≠ .error ConvErr.emptySelection) := by
  constructor
  · intro s N r h hN
    exact parse_page_range_ok_ne_nil h hN
  · intro env req N hpc hN hcontra
    unfold convert_pdf_to_images at hcontra
    rcases hdl : download_pdf_to_tempfile env.response with de | fs <;>
        rw [hdl] at hcontra
    · rcases de <;> simp only [] at hcontra <;> simp at hcontra
    · simp only [] at hcontra
      rw [hpc] at hcontra
      simp only [] at hcontra
      rcases hp : parse_page_range req.page_range (N : Int) with e | r <;>
          rw [hp] at hcontra <;> simp only [] at hcontra
      · simp at hcontra
      · have hrne : r ≠ [] :=
          parse_page_range_ok_ne_nil hp (by exact_mod_cast hN)
        rw [if_neg hrne] at hcontra
        split at hcontra
        · simp at hcontra
        · split at hcontra
          · simp at hcontra
          · split at hcontra
            · simp at hcontra
            · split at hcontra
              · simp at hcontra
              · simp at hcontra

/-- C10 witness: a concrete successful parse whose result is non-empty. -/
theorem C10_witness : parse_page_range "1" 5 = .ok [1] ∧ ([1] : List Int) ≠ [] :=
  ⟨by decide, C10_nonempty_selection.1 "1" 5 [1] (by decide) (by decide)⟩

/-- C1 (code-bug evidence): a success response with no declared
Content-Length whose streamed body is 201 chunks of CHUNK_SIZE bytes — one
full chunk beyond the 200 MiB ceiling — is written to the end and the
download succeeds, yielding a local resource larger than MAX_FILE_SIZE: the
streaming loop of `download_pdf_to_tempfile` performs no incremental size
check at all. -/
theorem C1_no_streaming_enforcement :
    download_pdf_to_tempfile ⟨true, none, List.replicate 201 CHUNK_SIZE⟩ =
      .ok (201 * CHUNK_SIZE)
    ∧ 201 * CHUNK_SIZE > MAX_FILE_SIZE :=
  ⟨by decide, by decide⟩

/-- C2: the page renderer is total over per-page failures: a failed document
open, an out-of-range 0-based page index, and any internal error in the
rasterize/encode step each yield `none`; an image is returned only from a
fully successful render.  No failure escapes `process_single_page`. -/
theorem C2_renderer_total (od : Except PyErr Doc) (pn dpi q : Int)
    (uj : Bool) :
    (∀ e, od = .error e → process_single_page od pn dpi q uj = none)
    ∧ (∀ doc, od = .ok doc → (pn - 1 ≥ (doc.pageCount : Int) ∨ pn - 1 < 0) →
        process_single_page od pn dpi q uj = none)
    ∧ (∀ e, process_single_page_body od pn dpi q uj = .error e →
        process_single_page od pn dpi q uj = none)
    ∧ (∀ s, process_single_page od pn dpi q uj = some s →
        ∃ doc, od = .ok doc ∧ ¬(pn - 1 ≥ (doc.pageCount : Int) ∨ pn - 1 < 0) ∧
          doc.renderEncode (pn - 1).toNat dpi q uj = .ok s) := by
  refine ⟨?_, ?_, ?_, ?_⟩
  · intro e he
    unfold process_single_page process_single_page_body
    rw [he]
  · intro doc hd hidx
    unfold process_single_page process_single_page_body
    rw [hd]
    simp only []
    rw [if_pos hidx]
  · intro e hb
    unfold process_single_page
    rw [hb]
  · intro s hs
    unfold process_single_page at hs
    rcases hb : process_single_page_body od pn dpi q uj with e | r <;>
        rw [hb] at hs <;> simp only [] at hs
    · cases hs
    subst hs
    unfold process_single_page_body at hb
    rcases od with e | doc
    · simp at hb
    · simp only [] at hb
      split at hb

      · injection hb with h2
        simp at h2
      · rename_i hcond
        rcases hre : doc.renderEncode (pn - 1).toNat dpi q uj with e | img <;>
            rw [hre] at hb <;> simp only [] at hb
        · simp at hb
        · injection hb with h2
          injection h2 with h3
          subst h3
          exact ⟨doc, rfl, hcond, hre⟩

/-- C2 witness: requesting page 5 of the two-page document yields `none`. -/
theorem C2_witness : process_single_page (.ok docWitness) 5 150 85 true = none :=
  (C2_renderer_total (.ok docWitness) 5 150 85 true).2.1 docWitness rfl
    (by decide)

/-- Reduction of the pipeline to the render loop once the download, the
page-count inspection, the range resolution and all ceiling checks have
passed. -/
theorem convert_reaches_render {env : PipelineEnv} {req : PDFRequest}
    {fs : Nat} {N : Nat} {ps : List Int}
    (hdl : download_pdf_to_tempfile env.response = .ok fs)
    (hpc : get_pdf_page_count env.open_doc = .ok N)
    (hp : parse_page_range req.page_range (N : Int) = .ok ps)
    (hne : ps ≠ [])
    (hmax : ps.length ≤ MAX_PAGES_PER_REQUEST)
    (hd1 : req.dpi ≤ 600) (hd2 : 50 ≤ req.dpi) :
    convert_pdf_to_images env req =
      (if ps.filterMap
            (fun p => process_single_page env.open_doc p req.dpi req.quality
              req.use_jpeg) = []
       then .error ConvErr.allPagesFailed
       else .ok
         ⟨ps.filterMap
            (fun p => process_single_page env.open_doc p req.dpi req.quality
              req.use_jpeg),
          (ps.filterMap
            (fun p => process_single_page env.open_doc p req.dpi req.quality
              req.use_jpeg)).length,
          ps.filter
            (fun p => (process_single_page env.open_doc p req.dpi req.quality
              req.use_jpeg).isSome),
          fs⟩) := by
  unfold convert_pdf_to_images
  rw [hdl]
  simp only []
  rw [hpc]
  simp only []
  rw [hp]
  simp only []
  rw [if_neg hne, if_neg (Nat.not_lt.mpr hmax),
    if_neg (by omega : ¬req.dpi > 600), if_neg (by omega : ¬req.dpi < 50),
    process_page_range_low_memory_eq]

/-- C3: once the pipeline reaches the render loop, it fails with
`allPagesFailed` exactly when every requested page's render returned `none`;
as soon as one page renders, it succeeds and returns exactly the successful
pages (the failed ones dropped), paired 1:1 with their images. -/
theorem C3_all_pages_failed_iff (env : PipelineEnv) (req : PDFRequest)
    (N : Nat) (fs : Nat) (ps : List Int)
    (hdl : download_pdf_to_tempfile env.response = .ok fs)
    (hpc : get_pdf_page_count env.open_doc = .ok N)
    (hp : parse_page_range req.page_range (N : Int) = .ok ps)
    (hne : ps ≠ [])
    (hmax : ps.length ≤ MAX_PAGES_PER_REQUEST)
    (hd1 : req.dpi ≤ 600) (hd2 : 50 ≤ req.dpi) :
    (convert_pdf_to_images env req = .error ConvErr.allPagesFailed ↔
       ∀ p ∈ ps,
         process_single_page env.open_doc p req.dpi req.quality req.use_jpeg
           = none)
    ∧ ((∃ p ∈ ps,
         (process_single_page env.open_doc p req.dpi req.quality
           req.use_jpeg).isSome) →
       convert_pdf_to_images env req = .ok
         ⟨ps.filterMap
            (fun p => process_single_page env.open_doc p req.dpi req.quality
              req.use_jpeg),
          (ps.filterMap
            (fun p => process_single_page env.open_doc p req.dpi req.quality
              req.use_jpeg)).length,
          ps.filter
            (fun p => (process_single_page env.open_doc p req.dpi req.quality
              req.use_jpeg).isSome),
          fs⟩) := by
  have hconv := convert_reaches_render hdl hpc hp hne hmax hd1 hd2
  constructor
  · constructor
    · intro h
      rw [hconv] at h
      by_cases hF : ps.filterMap
          (fun p => process_single_page env.open_doc p req.dpi req.quality
            req.use_jpeg) = []
      · exact fun p hpmem => List.filterMap_eq_nil_iff.1 hF p hpmem
      · rw [if_neg hF] at h
        cases h
    · intro hall
      rw [hconv, if_pos (List.filterMap_eq_nil_iff.2 hall)]
  · rintro ⟨p, hpmem, hpsome⟩
    have hF : ps.filterMap
        (fun q => process_single_page env.open_doc q req.dpi req.quality
          req.use_jpeg) ≠ [] := by
      intro hF
      have := List.filterMap_eq_nil_iff.1 hF p hpmem
      rw [this] at hpsome
      cases hpsome
    rw [hconv, if_neg hF]

/-- C3 witness: on `envWitness` with range "all", page 1 fails, page 2
succeeds, and the pipeline returns exactly page 2's image. -/
theorem C3_witness :
    convert_pdf_to_images envWitness ⟨"all", 150, 85, true⟩ =
      .ok ⟨["IMG"], 1, [2], 10⟩ := by
  have h := (C3_all_pages_failed_iff envWitness ⟨"all", 150, 85, true⟩ 2 10
    [1, 2] (by decide) (by decide) (by decide) (by decide) (by decide)
    (by decide) (by decide)).2 ⟨2, by decide, by decide⟩
  exact h.trans (by decide)

/-- C8 amended: the dpi bounds are validated after range resolution and the
page-count ceiling but before the render loop: with the earlier stages passed
and dpi out of 50..600, the pipeline fails with the matching dpi error, an
outcome fixed without consulting the renderer. -/
theorem C8_dpi_checked_before_render (env : PipelineEnv) (req : PDFRequest)
    (N : Nat) (fs : Nat) (ps : List Int)
    (hdl : download_pdf_to_tempfile env.response = .ok fs)
    (hpc : get_pdf_page_count env.open_doc = .ok N)
    (hp : parse_page_range req.page_range (N : Int) = .ok ps)
    (hne : ps ≠ [])
    (hmax : ps.length ≤ MAX_PAGES_PER_REQUEST)
    (hdpi : req.dpi > 600 ∨ req.dpi < 50) :
    convert_pdf_to_images env req =
      .error (if req.dpi > 600 then ConvErr.dpiTooHigh else ConvErr.dpiTooLow) := by
  unfold convert_pdf_to_images
  rw [hdl]
  simp only []
  rw [hpc]
  simp only []
  rw [hp]
  simp only []
  rw [if_neg hne, if_neg (Nat.not_lt.mpr hmax)]
  by_cases h6 : req.dpi > 600
  · rw [if_pos h6, if_pos h6]
  · rw [if_neg h6, if_neg h6, if_pos (hdpi.resolve_left h6)]

/-- C8 witness: dpi 1000 is rejected as too high before any render. -/
theorem C8_witness :
    convert_pdf_to_images envOnePage ⟨"1", 1000, 85, true⟩ =
      .error ConvErr.dpiTooHigh := by
  have h := C8_dpi_checked_before_render envOnePage ⟨"1", 1000, 85, true⟩ 1 10
    [1] (by decide) (by decide) (by decide) (by decide) (by decide)
    (Or.inl (by decide))
  rwa [if_pos (by decide : (1000 : Int) > 600)] at h

/-- C8 counterexample: quality 0 lies outside 1..100, yet the pipeline
performs no quality validation anywhere: the request reaches the render loop
and succeeds. -/
theorem C8_quality_unchecked :
    ((0 : Int) < 1 ∨ (0 : Int) > 100)
    ∧ convert_pdf_to_images envOnePage ⟨"1", 150, 0, true⟩ =
        .ok ⟨["IMG"], 1, [1], 10⟩ :=
  ⟨Or.inl (by decide), by decide⟩

/-- C7 amended: per token, the parser fails with an InvalidRangeSyntax-kind
error exactly when the token is neither a valid integer nor a valid
start-end pair, and with an OutOfBounds-kind error exactly when the token is
well-formed but an endpoint falls outside [1, totalPages] or start > end; at
the expression level the reported failure is that of the first offending
token (every earlier token parses).  The cited examples fail as stated, and
the two failure kinds are distinguishable via `ParseErr.isSyntax`. -/
theorem C7_error_taxonomy :
    (∀ (p : List Char) (m : Int),
       ((∃ l, parseToken p m = .ok l) ↔
         (isValidInt p = true ∨ isValidPair p = true) ∧
           tokenInBounds p m = true))
    ∧ (∀ (p : List Char) (m : Int) (e : ParseErr), parseToken p m = .error e →
         (e.isSyntax = true ↔ ¬(isValidInt p = true ∨ isValidPair p = true)))
    ∧ (∀ (p : List Char) (m : Int) (e : ParseErr), parseToken p m = .error e →
         (e.isSyntax = false ↔
           (isValidInt p = true ∨ isValidPair p = true) ∧
             tokenInBounds p m = false))
    ∧ (∀ (ts : List (List Char)) (m : Int) (e : ParseErr),
         processTokens ts m = .error e →
         ∃ l1 p l2, ts = l1 ++ p :: l2 ∧
           (∀ q ∈ l1, ∃ c, parseToken q m = .ok c) ∧
           parseToken p m = .error e)
    ∧ parse_page_range "a-b" 5 =
        .error (ParseErr.invalidNumbersInRange "a-b".data)
    ∧ parse_page_range "1-2-3" 5 = .error (ParseErr.invalidRange "1-2-3".data)
    ∧ parse_page_range "3-1" 5 = .error (ParseErr.outOfBoundsRange "3-1".data)
    ∧ parse_page_range "0" 5 = .error (ParseErr.outOfBoundsPage "0".data)
    ∧ parse_page_range "6" 5 = .error (ParseErr.outOfBoundsPage "6".data)
    ∧ (ParseErr.invalidNumbersInRange "a-b".data).isSyntax = true
    ∧ (ParseErr.outOfBoundsRange "3-1".data).isSyntax = false :=
  ⟨fun p m => (parseToken_classified p m).1,
    fun p m e he => ((parseToken_classified p m).2 e he).1,
    fun p m e he => ((parseToken_classified p m).2 e he).2,
    fun ts m e h => processTokens_err_inv h,
    by decide, by decide, by decide, by decide, by decide, by decide,
    by decide⟩

/-- C7 counterexample: "0,x" contains the syntactically invalid token "x",
yet resolution fails with the OutOfBounds-kind error of the earlier token
"0": the failure kind is not characterized by "some token is syntactically
invalid". -/
theorem C7_mixed_offense :
    (isValidInt "x".data = false ∧ isValidPair "x".data = false)
    ∧ "x".data ∈ tokenize "0,x"
    ∧ parse_page_range "0,x" 5 = .error (ParseErr.outOfBoundsPage "0".data)
    ∧ (ParseErr.outOfBoundsPage "0".data).isSyntax = false :=
  ⟨⟨by decide, by decide⟩, by decide, by decide, by decide⟩

/-- C7 witness: the per-token characterization applied to the token "x",
whose failure is a syntax-kind error. -/
theorem C7_witness :
    parseToken "x".data 5 = .error (ParseErr.invalidPageNumber "x".data)
    ∧ ((ParseErr.invalidPageNumber "x".data).isSyntax = true ↔
        ¬(isValidInt "x".data = true ∨ isValidPair "x".data = true)) :=
  ⟨by decide, C7_error_taxonomy.2.1 "x".data 5
    (ParseErr.invalidPageNumber "x".data) (by decide)⟩

/-- C4 (code-bug evidence): the legacy src/app pipeline on a three-page
document with page_range "1,3" converts the whole contiguous block 1..3 and
pairs its three images with pages [1,3]: the images do not correspond 1:1 to
the listed pages, and total_pages_processed (3) differs from the length of
pages (2). -/
theorem C4_app_block_mismatch :
    App.convert_pdf_to_images ⟨["P1", "P2", "P3"]⟩ ⟨"1,3", 200⟩ =
      .ok ⟨["P1", "P2", "P3"], 3, [1, 3]⟩
    ∧ (["P1", "P2", "P3"] : List String).length ≠ ([1, 3] : List Int).length :=
  ⟨by decide, by decide⟩

end PdfRender
